import Mathlib

/-!
# Verification of the ROIC calculation engine (`src/lib/calculations/decision-framework.ts`)

Shallow embedding of the deterministic financial calculation engine and of the
decision-classification layer built on top of it.  JavaScript numbers are
idealized as exact rationals (`ℚ`): the engine's arithmetic is modelled exactly,
so floating-point rounding, `NaN` and `Infinity` are outside the model.  Input
maps (`CalculationInputs`, an open string-keyed object) are modelled as
association lists of dynamic values; a value of the wrong dynamic type under a
numeric key (which would propagate `NaN` in JavaScript) is treated as absent.
-/

namespace Roic

/-- Dynamic value of one input-map entry: `number | string | boolean | number[]`
(the value types admitted by `CalculationInputs`). -/
inductive Value where
  | num (q : ℚ)
  | str (s : String)
  | bool (b : Bool)
  | curve (c : List ℚ)
  deriving DecidableEq, Repr

/-- `CalculationInputs`: an open mapping from driver key to value, modelled as an
association list (a JavaScript object; keys are unique in any object the caller
can build, which is assumed where a proof needs it). -/
abbrev InputMap := List (String × Value)

/-- Property lookup `m[k]`: first entry with key `k` (`none` = `undefined`). -/
def lookupVal : InputMap → String → Option Value
  | [], _ => none
  | (k', v) :: rest, k => if k' = k then some v else lookupVal rest k

/-- `m.k ?? d` for a numeric driver: the number stored under `k`, else `d`. -/
def numD (m : InputMap) (k : String) (d : ℚ) : ℚ :=
  match lookupVal m k with
  | some (.num q) => q
  | _ => d

/-- The curve stored under `k`, if `k` holds an array value. -/
def curveVal (m : InputMap) (k : String) : Option (List ℚ) :=
  match lookupVal m k with
  | some (.curve c) => some c
  | _ => none

/-- JavaScript truthiness of `m[k]` for the guard `if (inputs.x && inputs.y)`
over numeric drivers: present and nonzero. -/
def truthyNum (m : InputMap) (k : String) : Bool :=
  match lookupVal m k with
  | some (.num q) => q ≠ 0
  | _ => false

/-- Loop trip count of `for (let p = 1; p <= n; p++)` for a (possibly
fractional or negative) bound `n`. -/
def natFloor (q : ℚ) : ℕ :=
  if q ≤ 0 then 0 else q.num.toNat / q.den

/-- Final length target of the `while (curve.length < periods) push` loop. -/
def natCeil (q : ℚ) : ℕ :=
  if q ≤ 0 then 0 else (q.num.toNat + q.den - 1) / q.den

/-- `Math.round`: round half toward positive infinity. -/
def jsRound (q : ℚ) : ℚ := ((q + 1/2).num.fdiv (q + 1/2).den : ℤ)

/-- `a[i]` for a JavaScript numeric index `i` (array access in
`operatingPeriods[period.period - 2]`): an integral in-range index selects the
element, anything else is `undefined`. -/
def listGetQ {α : Type} (l : List α) (q : ℚ) : Option α :=
  if q.den = 1 ∧ 0 ≤ q.num then l.get? q.num.toNat else none

/-! ## Defaults and input normalization -/

/-- The module-level `DEFAULTS` table, parametrized by the current contents of
its two (mutable, module-level) ramp-curve arrays. -/
def DEFAULTSwith (rev cost : List ℚ) : InputMap :=
  [("effective_tax_rate", .num 25),
   ("depreciation_years", .num 5),
   ("model_periods", .num 5),
   ("probability_of_success", .num 100),
   ("cost_of_capital", .num 10),
   ("revenue_ramp_curve", .curve rev),
   ("cost_ramp_curve", .curve cost)]

/-- Initial contents of the `DEFAULTS` ramp-curve arrays. -/
def defaultCurve : List ℚ := [100, 100, 100, 100, 100]

/-- The `DEFAULTS` table as the module initializes it. -/
def DEFAULTS : InputMap := DEFAULTSwith defaultCurve defaultCurve

/-- Object spread `{ ...d, ...r }`: keys of `d` first (values overridden by `r`
where present), then the keys of `r` not in `d`, in order. -/
def spread (d r : InputMap) : InputMap :=
  d.map (fun p => (p.1, (lookupVal r p.1).getD p.2)) ++
    r.filter (fun p => (lookupVal d p.1).isNone)

/-- Replace the value stored under `k`, keeping entry order. -/
def updateVal (m : InputMap) (k : String) (v : Value) : InputMap :=
  m.map (fun p => (p.1, if p.1 = k then v else p.2))

/-- Property assignment `m[k] = v`: overwrite in place when the key exists,
append otherwise. -/
def setKey (m : InputMap) (k : String) (v : Value) : InputMap :=
  if (lookupVal m k).isSome then updateVal m k v
  else m ++ [(k, v)]

/-- Condition of `if (!normalized.baseline_revenue && normalized.baseline_revenue !== 0)`:
true exactly for `undefined`, the empty string, and `false` (numbers are
excluded by `!== 0` together with `!x`; arrays are truthy). -/
def needsRevenueDefault : Option Value → Bool
  | none => true
  | some (.num _) => false
  | some (.str s) => s = ""
  | some (.bool b) => !b
  | some (.curve _) => false

/-- `while (curve.length < periods) curve.push(curve[curve.length - 1] ?? 100)`:
extend the curve to the modeling horizon by repeating its last value. -/
def padCurve (c : List ℚ) (periods : ℚ) : List ℚ :=
  c ++ List.replicate (natCeil periods - c.length) (c.getLast?.getD 100)

/-- Apply the padding loop to the curve stored under `k`, when `k` holds an
array (a falsy or non-array value skips the `if (normalized.curve)` guard). -/
def padKey (m : InputMap) (k : String) (periods : ℚ) : InputMap :=
  match lookupVal m k with
  | some (.curve c) => updateVal m k (.curve (padCurve c periods))
  | _ => m

/-- `normalizeInputs`: default `baseline_revenue` to 0 with a warning when it is
missing, then pad both ramp curves to `model_periods`.  Returns the normalized
map and the warnings list. -/
def normalizeInputs (inputs : InputMap) : InputMap × List String :=
  let missingRev := needsRevenueDefault (lookupVal inputs "baseline_revenue")
  let warnings : List String :=
    if missingRev then ["Baseline revenue not provided; revenue impacts will be zero"] else []
  let n1 := if missingRev then setKey inputs "baseline_revenue" (.num 0) else inputs
  let periods := numD n1 "model_periods" 5
  let n2 := padKey n1 "revenue_ramp_curve" periods
  let n3 := padKey n2 "cost_ramp_curve" periods
  (n3, warnings)

/-! ## Period projector -/

/-- `PeriodMetrics`: one record per period (period 0 = initial investment). -/
structure PeriodMetrics where
  period : ℚ
  revenueImpact : ℚ
  priceImpact : ℚ
  volumeImpact : ℚ
  mixImpact : ℚ
  churnImpact : ℚ
  newRevenue : ℚ
  costSavings : ℚ
  variableCostSavings : ℚ
  fixedCostSavings : ℚ
  freightSavings : ℚ
  laborSavings : ℚ
  vendorSavings : ℚ
  grossImpact : ℚ
  nopat : ℚ
  depreciation : ℚ
  maintenanceCost : ℚ
  workingCapitalImpact : ℚ
  arImpact : ℚ
  inventoryImpact : ℚ
  apImpact : ℚ
  operatingCashFlow : ℚ
  freeCashFlow : ℚ
  cumulativeCashFlow : ℚ
  rampPct : ℚ

/-- `curve?.[p - 1] ?? 100`: the ramp entry for operating period `p`. -/
def rampAt (m : InputMap) (k : String) (p : ℕ) : ℚ :=
  ((curveVal m k).bind (fun c => c.get? (p - 1))).getD 100

/-- Body of the operating-period loop (`for (let p = 1; p <= numPeriods; p++)`):
the record for period `p`, given the cumulative cash flow carried in from the
previous period. -/
def mkPeriod (inputs : InputMap) (taxRate : ℚ) (p : ℕ) (prevCum : ℚ) : PeriodMetrics :=
  let revenueRamp := rampAt inputs "revenue_ramp_curve" p / 100
  let costRamp := rampAt inputs "cost_ramp_curve" p / 100
  let baseRevenue := numD inputs "baseline_revenue" 0
  let priceImpact := baseRevenue * (numD inputs "price_change_pct" 0 / 100) * revenueRamp
  let volumeImpact := baseRevenue * (numD inputs "volume_change_pct" 0 / 100) * revenueRamp
  let mixImpact := baseRevenue * (numD inputs "mix_improvement_pct" 0 / 100) * revenueRamp
  let churnImpact := baseRevenue * (numD inputs "churn_reduction_pct" 0 / 100) * revenueRamp
  let attachImpact := baseRevenue * (numD inputs "attach_rate_improvement" 0 / 100) * revenueRamp
  let newRevenue := numD inputs "new_revenue_annual" 0 * revenueRamp
  let totalRevenueImpact :=
    priceImpact + volumeImpact + mixImpact + churnImpact + attachImpact + newRevenue
  let baseCogs := numD inputs "baseline_cogs" 0
  let baseOpex := numD inputs "baseline_opex" 0
  let variableCostSavings := baseCogs * (numD inputs "variable_cost_reduction_pct" 0 / 100) * costRamp
  let fixedCostSavings := numD inputs "fixed_cost_reduction" 0 * costRamp
  let freightSavings :=
    numD inputs "freight_baseline" 0 * (numD inputs "freight_savings_pct" 0 / 100) * costRamp
  let shrinkSavings := baseRevenue * (numD inputs "shrink_reduction_pct" 0 / 100) * costRamp
  let laborSavings :=
    if truthyNum inputs "headcount_reduction" ∧ truthyNum inputs "avg_fully_loaded_cost" then
      numD inputs "headcount_reduction" 0 * numD inputs "avg_fully_loaded_cost" 0 * costRamp
    else if truthyNum inputs "productivity_improvement_pct" ∧ 0 < baseOpex then
      (baseOpex * (1/2)) * (numD inputs "productivity_improvement_pct" 0 / 100) * costRamp
    else 0
  let vendorSavings := numD inputs "vendor_savings_annual" 0 * costRamp
  let totalCostSavings :=
    variableCostSavings + fixedCostSavings + freightSavings + shrinkSavings +
      laborSavings + vendorSavings
  let grossImpact := totalRevenueImpact + totalCostSavings
  let depreciation := numD inputs "upfront_capex" 0 / numD inputs "depreciation_years" 5
  let maintenanceCost := numD inputs "ongoing_maintenance" 0
  let nopat := (grossImpact - depreciation - maintenanceCost) * (1 - taxRate)
  let dailyRevenue := baseRevenue / 365
  let dailyCogs := baseCogs / 365
  let arImpact := dailyRevenue * numD inputs "dso_improvement_days" 0
  let inventoryImpact := dailyCogs * numD inputs "dio_improvement_days" 0
  let apImpact := dailyCogs * numD inputs "dpo_improvement_days" 0
  let workingCapitalImpact := if p = 1 then arImpact + inventoryImpact + apImpact else 0
  let operatingCashFlow := nopat + depreciation - maintenanceCost
  let freeCashFlowThisPeriod := operatingCashFlow + (if p = 1 then workingCapitalImpact else 0)
  { period := (p : ℚ)
    revenueImpact := totalRevenueImpact
    priceImpact := priceImpact
    volumeImpact := volumeImpact
    mixImpact := mixImpact
    churnImpact := churnImpact
    newRevenue := newRevenue
    costSavings := totalCostSavings
    variableCostSavings := variableCostSavings
    fixedCostSavings := fixedCostSavings
    freightSavings := freightSavings
    laborSavings := laborSavings
    vendorSavings := vendorSavings
    grossImpact := grossImpact
    nopat := nopat
    depreciation := depreciation
    maintenanceCost := maintenanceCost
    workingCapitalImpact := workingCapitalImpact
    arImpact := if p = 1 then arImpact else 0
    inventoryImpact := if p = 1 then inventoryImpact else 0
    apImpact := if p = 1 then apImpact else 0
    operatingCashFlow := operatingCashFlow
    freeCashFlow := freeCashFlowThisPeriod
    cumulativeCashFlow := prevCum + freeCashFlowThisPeriod
    rampPct := max revenueRamp costRamp * 100 }

/-- The fixed period-0 record (initial investment instant). -/
def period0 (inputs : InputMap) : PeriodMetrics :=
  let cumulativeCashFlow :=
    -(numD inputs "upfront_capex" 0 + numD inputs "implementation_cost" 0)
  { period := 0
    revenueImpact := 0, priceImpact := 0, volumeImpact := 0, mixImpact := 0
    churnImpact := 0, newRevenue := 0
    costSavings := 0, variableCostSavings := 0, fixedCostSavings := 0
    freightSavings := 0, laborSavings := 0, vendorSavings := 0
    grossImpact := 0, nopat := 0, depreciation := 0, maintenanceCost := 0
    workingCapitalImpact := numD inputs "working_capital_delta" 0
    arImpact := 0, inventoryImpact := 0, apImpact := 0
    operatingCashFlow := -(numD inputs "implementation_cost" 0)
    freeCashFlow := cumulativeCashFlow
    cumulativeCashFlow := cumulativeCashFlow
    rampPct := 0 }

/-- The operating periods `p, p+1, ...` (`fuel` many), threading the cumulative
cash flow. -/
def buildPeriods (inputs : InputMap) (taxRate : ℚ) (cum : ℚ) (p fuel : ℕ) :
    List PeriodMetrics :=
  match fuel with
  | 0 => []
  | fuel' + 1 =>
      let r := mkPeriod inputs taxRate p cum
      r :: buildPeriods inputs taxRate r.cumulativeCashFlow (p + 1) fuel'

/-- `calculatePeriods`: period 0 followed by operating periods `1..model_periods`. -/
def calculatePeriods (inputs : InputMap) : List PeriodMetrics :=
  let taxRate := numD inputs "effective_tax_rate" 25 / 100
  let p0 := period0 inputs
  p0 :: buildPeriods inputs taxRate p0.cumulativeCashFlow 1
    (natFloor (numD inputs "model_periods" 5))

/-! ## Summary aggregator -/

/-- `tufiBreakdown` sub-record of the summary. -/
structure TufiBreakdown where
  capex : ℚ
  oneTimeCosts : ℚ
  workingCapitalDelta : ℚ

/-- `SummaryMetrics`: the derived investment metrics. -/
structure SummaryMetrics where
  tufi : ℚ
  tufiBreakdown : TufiBreakdown
  steadyStateNopat : ℚ
  avgAnnualNopat : ℚ
  totalNopat : ℚ
  roic : ℚ
  roicPct : String
  paybackPeriod : Option ℚ
  npv : ℚ
  irr : Option ℚ
  irrPct : Option String
  probabilityAdjustedNopat : ℚ
  probabilityAdjustedRoic : ℚ
  dataQualityScore : ℚ
  completenessScore : ℚ

/-- Integer value of a digit run, stopping at the first non-digit. -/
def digitsVal : List Char → ℕ → ℕ
  | [], acc => acc
  | c :: rest, acc => if c.isDigit then digitsVal rest (10 * acc + (c.toNat - 48)) else acc

/-- `parseInt(s, 10)` on the strings the engine feeds it: optional sign and a
leading digit run.  A string with no leading digits yields `NaN` in JavaScript;
the rational idealization returns 0 (no claim exercises that path). -/
def jsParseInt (s : String) : ℚ :=
  match s.data with
  | '-' :: rest => -(digitsVal rest 0 : ℚ)
  | '+' :: rest => (digitsVal rest 0 : ℚ)
  | l => (digitsVal l 0 : ℚ)

/-- Truncation toward zero (`parseInt(String(q))` for a finite number `q`). -/
def ratTrunc (q : ℚ) : ℤ :=
  if q < 0 then -((q.num.natAbs / q.den : ℕ) : ℤ) else ((q.num.natAbs / q.den : ℕ) : ℤ)

/-- `(n).toFixed(1)` for `n ≥ 0`: nearest multiple of 0.1, ties upward. -/
def toFixed1core (q : ℚ) : String :=
  let scaled := 10 * q + 1/2
  let z := (scaled.num.fdiv scaled.den).toNat
  toString (z / 10) ++ "." ++ toString (z % 10)

/-- `(n).toFixed(1)`: negative numbers format their absolute value behind a
sign (ECMA-262 `Number.prototype.toFixed`). -/
def toFixed1 (q : ℚ) : String :=
  if q < 0 then "-" ++ toFixed1core (-q) else toFixed1core q

/-- `Math.pow(b, e)` as the engine uses it: every exponent is a period index,
a natural number. -/
def qpowQ (b : ℚ) (e : ℚ) : ℚ := b ^ e.num.toNat

/-- The payback-period loop: first operating period with non-negative
cumulative cash flow, linearly interpolated inside that period.  `allOps` is
the full operating list indexed by `operatingPeriods[period.period - 2]`;
`seed` is `periods[0].cumulativeCashFlow`. -/
def findPayback (ops allOps : List PeriodMetrics) (seed : ℚ) : Option ℚ :=
  match ops with
  | [] => none
  | period :: rest =>
      if 0 ≤ period.cumulativeCashFlow then
        let prevCash :=
          ((listGetQ allOps (period.period - 2)).map (·.cumulativeCashFlow)).getD seed
        let cashGap := -prevCash
        let cashGenerated := period.cumulativeCashFlow - prevCash
        let fractionOfYear := if 0 < cashGenerated then cashGap / cashGenerated else 0
        some (period.period - 1 + fractionOfYear)
      else findPayback rest allOps seed

/-- NPV of a cash-flow sequence at a rate (`npv` accumulator of the IRR loop;
index 0 is undiscounted). -/
def irrNpvAt (cashFlows : List ℚ) (rate : ℚ) : ℚ :=
  (cashFlows.enum.map (fun tc => tc.2 / (1 + rate) ^ tc.1)).sum

/-- Derivative accumulator of the IRR loop (terms only for `t > 0`). -/
def irrDerivAt (cashFlows : List ℚ) (rate : ℚ) : ℚ :=
  (cashFlows.enum.map
    (fun tc => if 0 < tc.1 then -((tc.1 : ℚ) * tc.2 / (1 + rate) ^ (tc.1 + 1)) else 0)).sum

/-- The Newton-Raphson iteration of `calculateIRR`: up to `fuel` steps,
converging when `|npv| < 0.0001`, failing on a vanishing derivative, clamping
the rate to `[-0.99, 10]`; returns the last rate when the iteration budget is
exhausted. -/
def newtonIter (cashFlows : List ℚ) (rate : ℚ) : ℕ → Option ℚ
  | 0 => some rate
  | fuel + 1 =>
      let npv := irrNpvAt cashFlows rate
      let derivative := irrDerivAt cashFlows rate
      if |npv| < 1/10000 then some rate
      else if derivative = 0 then none
      else
        let r1 := rate - npv / derivative
        let r2 := if r1 < -(99/100) then -(99/100) else r1
        let r3 := if 10 < r2 then 10 else r2
        newtonIter cashFlows r3 fuel

/-- `calculateIRR`: `null` when the free cash flows admit no sign change,
otherwise Newton-Raphson from 0.1 with 100 iterations. -/
def calculateIRR (periods : List PeriodMetrics) : Option ℚ :=
  let cashFlows := periods.map (·.freeCashFlow)
  let hasNegative := cashFlows.any (fun cf => decide (cf < 0))
  let hasPositive := cashFlows.any (fun cf => decide (0 < cf))
  if !hasNegative || !hasPositive then none
  else newtonIter cashFlows (1/10) 100

/-- `calculateCompletenessScore`: share of core fields present plus qualifying
(present and nonzero) impact fields; when no impact field qualifies, the
denominator shrinks to the core fields plus one. -/
def calculateCompletenessScore (inputs : InputMap) : ℚ :=
  let coreFields := ["baseline_revenue", "effective_tax_rate", "model_periods"]
  let impactFields :=
    ["price_change_pct", "volume_change_pct", "variable_cost_reduction_pct",
     "fixed_cost_reduction", "freight_savings_pct", "headcount_reduction"]
  let filledCore := (coreFields.filter (fun f => (lookupVal inputs f).isSome)).length
  let qualifying := impactFields.filter (fun f =>
    match lookupVal inputs f with
    | some v => v ≠ .num 0
    | none => false)
  let hasImpact := !qualifying.isEmpty
  let filled : ℚ := (filledCore : ℚ) + (qualifying.length : ℚ)
  let total : ℚ := if hasImpact then (coreFields.length + impactFields.length : ℕ)
    else (coreFields.length + 1 : ℕ)
  jsRound (filled / total * 100)

/-- `calculateDataQualityScore`: completeness scaled by the confidence-level
multiplier, with a 0.8 penalty below 50% probability of success, capped at 100.
`confidence_level` is read through `parseInt`; a non-number non-string value
yields `NaN` in JavaScript and is idealized as 0 here (unreachable in the
claims). -/
def calculateDataQualityScore (inputs : InputMap) (completenessScore : ℚ) : ℚ :=
  let confidenceLevel : ℚ :=
    match lookupVal inputs "confidence_level" with
    | none => 3
    | some (.str s) => jsParseInt s
    | some (.num q) => (ratTrunc q : ℚ)
    | some _ => 0
  let score1 := completenessScore * (7/10 + confidenceLevel * (6/100))
  let probability := numD inputs "probability_of_success" 100
  let score2 := if probability < 50 then score1 * (4/5) else score1
  min 100 (jsRound score2)

/-- `calculateSummary`: the derived investment metrics over the period
sequence. -/
def calculateSummary (inputs : InputMap) (periods : List PeriodMetrics) :
    SummaryMetrics :=
  let operatingPeriods := periods.filter (fun p => decide (0 < p.period))
  let numPeriods : ℚ := (operatingPeriods.length : ℚ)
  let capex := numD inputs "upfront_capex" 0
  let oneTimeCosts := numD inputs "implementation_cost" 0
  let workingCapitalDelta := -(((operatingPeriods.get? 0).map (·.workingCapitalImpact)).getD 0)
  let tufi := capex + oneTimeCosts + max 0 workingCapitalDelta
  let totalNopat := (operatingPeriods.map (·.nopat)).sum
  let avgAnnualNopat := totalNopat / numPeriods
  let steadyStateNopat := ((operatingPeriods.getLast?).map (·.nopat)).getD 0
  let roic := if 0 < tufi then steadyStateNopat / tufi else 0
  let roicPct := toFixed1 (roic * 100) ++ "%"
  let paybackPeriod :=
    findPayback operatingPeriods operatingPeriods
      (((periods.get? 0).map (·.cumulativeCashFlow)).getD 0)
  let costOfCapital := numD inputs "cost_of_capital" 10 / 100
  let npv := (((periods.get? 0).map (·.freeCashFlow)).getD 0) +
    (operatingPeriods.map (fun p => p.freeCashFlow / qpowQ (1 + costOfCapital) p.period)).sum
  let irr := calculateIRR periods
  let irrPct := irr.map (fun r => toFixed1 (r * 100) ++ "%")
  let probability := numD inputs "probability_of_success" 100 / 100
  let probabilityAdjustedNopat := steadyStateNopat * probability
  let probabilityAdjustedRoic := if 0 < tufi then probabilityAdjustedNopat / tufi else 0
  let completenessScore := calculateCompletenessScore inputs
  let dataQualityScore := calculateDataQualityScore inputs completenessScore
  { tufi := tufi
    tufiBreakdown := ⟨capex, oneTimeCosts, workingCapitalDelta⟩
    steadyStateNopat := steadyStateNopat
    avgAnnualNopat := avgAnnualNopat
    totalNopat := totalNopat
    roic := roic
    roicPct := roicPct
    paybackPeriod := paybackPeriod
    npv := npv
    irr := irr
    irrPct := irrPct
    probabilityAdjustedNopat := probabilityAdjustedNopat
    probabilityAdjustedRoic := probabilityAdjustedRoic
    dataQualityScore := dataQualityScore
    completenessScore := completenessScore }

/-! ## Reproducibility hasher

`generateHash` serializes the normalized input map with keys sorted
lexicographically (`JSON.stringify(inputs, Object.keys(inputs).sort())`),
hashes with SHA-256 and keeps the first 16 hex characters.  SHA-256 is the
standard algorithm (Node `crypto`), implemented here over `ℕ` with explicit
32-bit wraparound.  Number rendering idealizes JavaScript double formatting by
an exact decimal/fraction rendering of the rational. -/

/-- Truncation to a 32-bit word. -/
def w32 (n : ℕ) : ℕ := n % 4294967296

/-- 32-bit rotate right. -/
def rotr32 (n x : ℕ) : ℕ := w32 ((x >>> n) ||| (x <<< (32 - n)))

/-- SHA-256 `Ch`. -/
def chFn (x y z : ℕ) : ℕ := (x &&& y) ^^^ ((x ^^^ 4294967295) &&& z)

/-- SHA-256 `Maj`. -/
def majFn (x y z : ℕ) : ℕ := (x &&& y) ^^^ (x &&& z) ^^^ (y &&& z)

/-- SHA-256 Σ₀. -/
def bigSigma0 (x : ℕ) : ℕ := rotr32 2 x ^^^ rotr32 13 x ^^^ rotr32 22 x

/-- SHA-256 Σ₁. -/
def bigSigma1 (x : ℕ) : ℕ := rotr32 6 x ^^^ rotr32 11 x ^^^ rotr32 25 x

/-- SHA-256 σ₀. -/
def smallSigma0 (x : ℕ) : ℕ := rotr32 7 x ^^^ rotr32 18 x ^^^ (x >>> 3)

/-- SHA-256 σ₁. -/
def smallSigma1 (x : ℕ) : ℕ := rotr32 17 x ^^^ rotr32 19 x ^^^ (x >>> 10)

/-- Bisection step for the integer cube root. -/
def icbrtGo (n : ℕ) : ℕ → ℕ → ℕ → ℕ
  | 0, lo, _ => lo
  | fuel + 1, lo, hi =>
      if hi ≤ lo + 1 then lo
      else
        let mid := (lo + hi) / 2
        if mid ^ 3 ≤ n then icbrtGo n fuel mid hi else icbrtGo n fuel lo mid

/-- Integer cube root: the largest `r` with `r³ ≤ n` (for `n < 2^200`). -/
def icbrt (n : ℕ) : ℕ := icbrtGo n 200 0 (n + 1)

/-- The first sixty-four primes. -/
def first64primes : List ℕ :=
  [2, 3, 5, 7, 11, 13, 17, 19, 23, 29, 31, 37, 41, 43, 47, 53, 59, 61, 67,
   71, 73, 79, 83, 89, 97, 101, 103, 107, 109, 113, 127, 131, 137, 139, 149,
   151, 157, 163, 167, 173, 179, 181, 191, 193, 197, 199, 211, 223, 227, 229,
   233, 239, 241, 251, 257, 263, 269, 271, 277, 281, 283, 293, 307, 311]

/-- SHA-256 round constants: the first 32 fractional bits of the cube roots
of the first 64 primes. -/
def sha256K : List ℕ := first64primes.map (fun p => w32 (icbrt (p <<< 96)))

/-- SHA-256 initial hash state: the first 32 fractional bits of the square
roots of the first 8 primes. -/
def sha256H0 : List ℕ :=
  (first64primes.take 8).map (fun p => w32 (Nat.sqrt (p <<< 64)))

/-- UTF-8 encoding of one code point. -/
def utf8Enc (c : Char) : List ℕ :=
  let n := c.toNat
  if n < 128 then [n]
  else if n < 2048 then [192 + n / 64, 128 + n % 64]
  else if n < 65536 then [224 + n / 4096, 128 + (n / 64) % 64, 128 + n % 64]
  else [240 + n / 262144, 128 + (n / 4096) % 64, 128 + (n / 64) % 64, 128 + n % 64]

/-- UTF-8 bytes of a string. -/
def strBytes (s : String) : List ℕ := (s.data.map utf8Enc).flatten

/-- SHA-256 message padding: `0x80`, zeros to 56 mod 64, 64-bit big-endian
bit length. -/
def sha256pad (msg : List ℕ) : List ℕ :=
  let len := msg.length
  let k := (56 + 64 - (len + 1) % 64) % 64
  let bitLen := 8 * len
  msg ++ [128] ++ List.replicate k 0 ++
    ((List.range 8).map (fun i => (bitLen >>> (8 * (7 - i))) % 256))

/-- Big-endian 32-bit words from bytes. -/
def bytesToWords : List ℕ → List ℕ
  | b0 :: b1 :: b2 :: b3 :: rest =>
      (b0 * 16777216 + b1 * 65536 + b2 * 256 + b3) :: bytesToWords rest
  | _ => []

/-- Split a word list into 16-word blocks (fuel-driven recursion). -/
def toBlocksAux : ℕ → List ℕ → List (List ℕ)
  | 0, _ => []
  | fuel + 1, ws =>
      match ws with
      | [] => []
      | _ => ws.take 16 :: toBlocksAux fuel (ws.drop 16)

/-- Split a word list into 16-word blocks. -/
def toBlocks (ws : List ℕ) : List (List ℕ) := toBlocksAux ws.length ws

/-- Extend a 16-word block to the 64-word message schedule (append `n` words). -/
def extendSchedule : ℕ → List ℕ → List ℕ
  | 0, w => w
  | n + 1, w =>
      extendSchedule n (w ++ [w32 (smallSigma1 (w.getD (w.length - 2) 0) +
        w.getD (w.length - 7) 0 + smallSigma0 (w.getD (w.length - 15) 0) +
        w.getD (w.length - 16) 0)])

/-- One SHA-256 compression round; `kw` is `K[i] + W[i]` (mod 2³²). -/
def sha256round (st : List ℕ) (kw : ℕ) : List ℕ :=
  let a := st.getD 0 0
  let b := st.getD 1 0
  let c := st.getD 2 0
  let d := st.getD 3 0
  let e := st.getD 4 0
  let f := st.getD 5 0
  let g := st.getD 6 0
  let h := st.getD 7 0
  let t1 := w32 (h + bigSigma1 e + chFn e f g + kw)
  let t2 := w32 (bigSigma0 a + majFn a b c)
  [w32 (t1 + t2), a, b, c, w32 (d + t1), e, f, g]

/-- Compress one 16-word block into the hash state. -/
def compressBlock (h : List ℕ) (block : List ℕ) : List ℕ :=
  let ws := extendSchedule 48 block
  let kws := (sha256K.zip ws).map (fun p => w32 (p.1 + p.2))
  let st := kws.foldl sha256round h
  (h.zip st).map (fun p => w32 (p.1 + p.2))

/-- Lowercase hex digit. -/
def hexDigitChar (n : ℕ) : Char :=
  if n < 10 then Char.ofNat (48 + n) else Char.ofNat (87 + n)

/-- Eight hex digits of a 32-bit word, most significant first. -/
def word8hex (w : ℕ) : List Char :=
  (List.range 8).map (fun i => hexDigitChar ((w >>> (4 * (7 - i))) % 16))

/-- Hex digest of the SHA-256 of a string's UTF-8 bytes. -/
def sha256hex (s : String) : String :=
  ⟨(((toBlocks (bytesToWords (sha256pad (strBytes s)))).foldl compressBlock
      sha256H0).map word8hex).flatten⟩

/-- JSON rendering of a number: exact decimal when integral, `num/den`
otherwise (idealizes JavaScript double-to-string; injective on `ℚ`). -/
def qRepr (q : ℚ) : String :=
  if q.den = 1 then toString q.num else toString q.num ++ "/" ++ toString q.den

/-- JSON string literal with quote/backslash escaping. -/
def jsonStr (s : String) : String :=
  "\"" ++ ⟨(s.data.map (fun c => if c = '"' ∨ c = '\\' then ['\\', c] else [c])).flatten⟩
    ++ "\""

/-- JSON rendering of one value. -/
def serializeValue : Value → String
  | .num q => qRepr q
  | .str s => jsonStr s
  | .bool b => if b then "true" else "false"
  | .curve c => "[" ++ String.intercalate "," (c.map qRepr) ++ "]"

/-- `Object.keys(inputs).sort()`: the keys in ascending lexicographic order
(an object's keys are unique, so any correct comparison sort returns this
list). -/
def sortStrings (l : List String) : List String := List.insertionSort (· ≤ ·) l

/-- `generateHash`: serialize with sorted keys
(`JSON.stringify(inputs, Object.keys(inputs).sort())`), SHA-256, first 16 hex
characters. -/
def generateHash (inputs : InputMap) : String :=
  let keys := sortStrings (inputs.map Prod.fst)
  let entries := keys.map (fun k =>
    jsonStr k ++ ":" ++ serializeValue ((lookupVal inputs k).getD (.num 0)))
  let sortedInputs := "\x7b" ++ String.intercalate "," entries ++ "\x7d"
  (sha256hex sortedInputs).take 16

/-! ## Output assembly and the engine's observable effects -/

/-- `CalculationOutput`. -/
structure CalculationOutput where
  summary : SummaryMetrics
  periods : List PeriodMetrics
  inputs : InputMap
  computeHash : String
  computedAt : String
  warnings : List String

/-- `calculateMetrics` against an explicit defaults table (the module-level
`DEFAULTS`, whose curve arrays are mutable).  `now` models the
`new Date().toISOString()` read, the only impure input. -/
def calculateMetricsWith (defaults rawInputs : InputMap) (now : String) :
    CalculationOutput :=
  let inputs := spread defaults rawInputs
  let norm := normalizeInputs inputs
  let periods := calculatePeriods norm.1
  { summary := calculateSummary norm.1 periods
    periods := periods
    inputs := norm.1
    computeHash := generateHash norm.1
    computedAt := now
    warnings := norm.2 }

/-- `calculateMetrics` on a fresh module (the `DEFAULTS` arrays as
initialized). -/
def calculateMetrics (rawInputs : InputMap) (now : String) : CalculationOutput :=
  calculateMetricsWith DEFAULTS rawInputs now

/-- Mutable state visible across engine calls: the caller's input map (whose
curve entries hold array objects) and the module-level `DEFAULTS` curve
arrays. -/
structure EngineState where
  raw : InputMap
  defRev : List ℚ
  defCost : List ℚ

/-- The state before any call on a caller-supplied map. -/
def initState (raw : InputMap) : EngineState := ⟨raw, defaultCurve, defaultCurve⟩

/-- The caller's map after one call: object spread copies array *references*,
so when the caller supplied a ramp curve, the `push` loop of `normalizeInputs`
extends the caller's own array in place — exactly the `padKey` update; a curve
the caller did not supply leaves the caller's map untouched. -/
def rawAfterCall (raw : InputMap) (P : ℚ) : InputMap :=
  padKey (padKey raw "revenue_ramp_curve" P) "cost_ramp_curve" P

/-- A module-level `DEFAULTS` curve array after one call: when the caller did
not supply the curve under `k`, the merged map aliases the defaults table's
array, and the `push` loop extends that array in place. -/
def defCurveAfterCall (raw : InputMap) (k : String) (d : List ℚ) (P : ℚ) :
    List ℚ :=
  if (lookupVal raw k).isNone then padCurve d P else d

/-- One call of `calculateMetrics`, with its heap effects on the caller's map
and on the module-level `DEFAULTS` curve arrays. -/
def calculateMetricsSt (s : EngineState) (now : String) :
    CalculationOutput × EngineState :=
  let defaults := DEFAULTSwith s.defRev s.defCost
  let out := calculateMetricsWith defaults s.raw now
  let periodsQ := numD (spread defaults s.raw) "model_periods" 5
  (out, ⟨rawAfterCall s.raw periodsQ,
    defCurveAfterCall s.raw "revenue_ramp_curve" s.defRev periodsQ,
    defCurveAfterCall s.raw "cost_ramp_curve" s.defCost periodsQ⟩)

/-! ## Decision classifier -/

/-- Traffic-light status. -/
inductive RAGStatus where
  | GREEN | AMBER | RED
  deriving DecidableEq, Repr

/-- Categorical recommendation. -/
inductive DecisionRecommendation where
  | STRONG_CANDIDATE | BELOW_HURDLE | HIGH_RISK_PROFILE | MARGINAL_ROIC_HIGH_EXPOSURE
  deriving DecidableEq, Repr

/-- Review tier. -/
inductive ReviewLevel where
  | LIGHT_TOUCH | BOARD_REVIEW | STANDARD
  deriving DecidableEq, Repr

/-- Conservative/expected/aggressive triple. -/
structure RangeQ where
  conservative : ℚ
  expected : ℚ
  aggressive : ℚ

/-- `DecisionMetrics`. -/
structure DecisionMetrics where
  ragStatus : RAGStatus
  recommendation : DecisionRecommendation
  reviewLevel : ReviewLevel
  roicRange : RangeQ
  absoluteReturnRange : RangeQ
  expectedValue : ℚ
  riskScore : ℚ
  vsHurdleRate : ℚ
  investmentSize : ℚ

/-- `calculateRAGStatus`: GREEN above hurdle + 25% buffer with probability ≥
0.7, else AMBER above hurdle − buffer with probability ≥ 0.5, else RED. -/
def calculateRAGStatus (roic hurdleRate probability : ℚ) : RAGStatus :=
  let buffer := hurdleRate * (25/100)
  if roic ≥ hurdleRate + buffer ∧ probability ≥ 7/10 then .GREEN
  else if roic ≥ hurdleRate - buffer ∧ probability ≥ 5/10 then .AMBER
  else .RED

/-- `calculateRecommendation`. -/
def calculateRecommendation (roic hurdleRate probability conservativeRoic
    aggressiveRoic : ℚ) : DecisionRecommendation :=
  let variance := aggressiveRoic - conservativeRoic
  if roic < hurdleRate then .BELOW_HURDLE
  else if 2/10 < variance ∧ probability < 7/10 then .HIGH_RISK_PROFILE
  else if |roic - hurdleRate| < 3/100 ∧ 2/10 < variance then .MARGINAL_ROIC_HIGH_EXPOSURE
  else .STRONG_CANDIDATE

/-- `calculateReviewLevel`. -/
def calculateReviewLevel (investmentSize lightTouchThreshold
    boardReviewThreshold : ℚ) : ReviewLevel :=
  if investmentSize ≤ lightTouchThreshold then .LIGHT_TOUCH
  else if boardReviewThreshold ≤ investmentSize then .BOARD_REVIEW
  else .STANDARD

/-- `calculateRiskScore`. -/
def calculateRiskScore (probability conservativeRoic aggressiveRoic : ℚ) : ℚ :=
  let variance := aggressiveRoic - conservativeRoic
  let probabilityRisk := (1 - probability) * 50
  let varianceRisk := min 50 (variance * 200)
  min 100 (jsRound (probabilityRisk + varianceRisk))

/-- `calculateDecisionMetricsSync`: the decision layer as a pure function of a
base-case output, policy thresholds, and optional scenario outputs. -/
def calculateDecisionMetricsSync (baseCase : CalculationOutput)
    (hurdleRate lightTouchThreshold boardReviewThreshold : ℚ)
    (conservative aggressive : Option CalculationOutput) : DecisionMetrics :=
  let expectedRoic := baseCase.summary.roic
  let expectedNopat := baseCase.summary.steadyStateNopat
  let probability := numD baseCase.inputs "probability_of_success" 100 / 100
  let investmentSize := baseCase.summary.tufi
  let conservativeRoic := (conservative.map (fun c => c.summary.roic)).getD
    (expectedRoic * (1 - numD baseCase.inputs "haircut_conservative" 20 / 100))
  let aggressiveRoic := (aggressive.map (fun a => a.summary.roic)).getD
    (expectedRoic * (1 + numD baseCase.inputs "haircut_aggressive" 20 / 100))
  let conservativeNopat := (conservative.map (fun c => c.summary.steadyStateNopat)).getD
    (expectedNopat * (1 - numD baseCase.inputs "haircut_conservative" 20 / 100))
  let aggressiveNopat := (aggressive.map (fun a => a.summary.steadyStateNopat)).getD
    (expectedNopat * (1 + numD baseCase.inputs "haircut_aggressive" 20 / 100))
  { ragStatus := calculateRAGStatus expectedRoic hurdleRate probability
    recommendation := calculateRecommendation expectedRoic hurdleRate probability
      conservativeRoic aggressiveRoic
    reviewLevel := calculateReviewLevel investmentSize lightTouchThreshold
      boardReviewThreshold
    roicRange := ⟨conservativeRoic, expectedRoic, aggressiveRoic⟩
    absoluteReturnRange := ⟨conservativeNopat, expectedNopat, aggressiveNopat⟩
    expectedValue := expectedNopat * probability
    riskScore := calculateRiskScore probability conservativeRoic aggressiveRoic
    vsHurdleRate := expectedRoic - hurdleRate
    investmentSize := investmentSize }

/-- The merged inputs (`{ ...DEFAULTS, ...raw }`) as seen by the call *after*
one engine call on `raw` with defaults-curve state `dRev`/`dCost` and padding
horizon `P`. -/
def mergedAfter (raw : InputMap) (dRev dCost : List ℚ) (P : ℚ) : InputMap :=
  spread (DEFAULTSwith (defCurveAfterCall raw "revenue_ramp_curve" dRev P)
    (defCurveAfterCall raw "cost_ramp_curve" dCost P)) (rawAfterCall raw P)

/-! ## Concrete input maps used by the scenario claims -/

/-- Scenario 1 of the specification. -/
def scenario1Inputs : InputMap :=
  [("baseline_revenue", .num 100000000), ("freight_baseline", .num 8000000),
   ("freight_savings_pct", .num 10), ("effective_tax_rate", .num 25),
   ("implementation_cost", .num 150000), ("probability_of_success", .num 80),
   ("model_periods", .num 5), ("cost_ramp_curve", .curve [50, 100, 100, 100, 100])]

/-- An implementation cost with no benefit drivers: every free cash flow is
`-150000` or `0`, so the IRR sign-change precondition fails. -/
def allNonPositiveInputs : InputMap := [("implementation_cost", .num 150000)]

/-- A map supplying only `working_capital_delta`, which period 0 copies into
its `workingCapitalImpact` field. -/
def c6CexInputs : InputMap := [("working_capital_delta", .num 5)]

/-- A map supplying a negative `upfront_capex`. -/
def negativeCapexInputs : InputMap := [("upfront_capex", .num (-100))]

/-- A small nonnegative-investment map. -/
def smallCapexInputs : InputMap := [("upfront_capex", .num 100)]

/-- A caller map with a one-entry `cost_ramp_curve` array: `normalizeInputs`
pads the curve to the five-period horizon through the shared array
reference. -/
def c8Inputs : InputMap :=
  [("cost_ramp_curve", .curve [50]), ("implementation_cost", .num 150000)]

/-- A caller map with eight periods and no curves: the padding loop extends
the module-level `DEFAULTS` curve arrays in place. -/
def c8DefaultsOnly : InputMap := [("model_periods", .num 8)]

/-- A two-driver map. -/
def c4MapA : InputMap :=
  [("baseline_revenue", .num 1000), ("upfront_capex", .num 500)]

/-- The same two drivers in the opposite key order. -/
def c4MapB : InputMap :=
  [("upfront_capex", .num 500), ("baseline_revenue", .num 1000)]

/-- A summary carrying `roic = 0.18` (Scenario 4 of the specification); the
remaining fields are immaterial to the decision classifier's RAG test. -/
def c9Summary : SummaryMetrics :=
  { tufi := 0, tufiBreakdown := ⟨0, 0, 0⟩, steadyStateNopat := 0,
    avgAnnualNopat := 0, totalNopat := 0, roic := 18/100, roicPct := "",
    paybackPeriod := none, npv := 0, irr := none, irrPct := none,
    probabilityAdjustedNopat := 0, probabilityAdjustedRoic := 0,
    dataQualityScore := 0, completenessScore := 0 }

/-- A base-case output with `roic = 0.18` and `probability_of_success = 85`. -/
def c9Base : CalculationOutput :=
  { summary := c9Summary, periods := [],
    inputs := [("probability_of_success", .num 85)],
    computeHash := "", computedAt := "", warnings := [] }

end Roic

namespace Roic

/-! ## Theorems -/

/-! ### Pointwise behaviour of the map operations -/

theorem lookupVal_append (l1 l2 : InputMap) (k : String) :
    lookupVal (l1 ++ l2) k = (lookupVal l1 k).orElse (fun _ => lookupVal l2 k) := by
  induction l1 with
  | nil => rfl
  | cons p rest ih =>
      by_cases h : p.1 = k <;> simp [lookupVal, h, ih]

theorem lookupVal_updateVal (m : InputMap) (k : String) (v : Value) (k' : String) :
    lookupVal (updateVal m k v) k' =
      if k' = k then (lookupVal m k).map (fun _ => v) else lookupVal m k' := by
  induction m with
  | nil => simp [updateVal, lookupVal]
  | cons p rest ih =>
      simp only [updateVal, List.map_cons] at ih ⊢
      by_cases h2 : p.1 = k'
      · by_cases h3 : k' = k
        · simp [lookupVal, h2, h3, h2.trans h3]
        · have hpk : ¬p.1 = k := by rw [h2]; exact h3
          simp [lookupVal, h2, h3, hpk]
      · by_cases h3 : k' = k
        · subst h3
          have hpk : ¬p.1 = k' := h2
          simp [lookupVal, hpk, ih]
        · simp [lookupVal, h2, h3, ih]

theorem keys_updateVal (m : InputMap) (k : String) (v : Value) :
    (updateVal m k v).map Prod.fst = m.map Prod.fst := by
  simp [updateVal, List.map_map]

theorem lookupVal_setKey_self (m : InputMap) (k : String) (v : Value) :
    lookupVal (setKey m k v) k = some v := by
  unfold setKey
  split
  · rename_i h
    rw [lookupVal_updateVal]
    cases hm : lookupVal m k with
    | none => rw [hm] at h; simp at h
    | some w => simp
  · rw [lookupVal_append]
    rename_i h
    cases hm : lookupVal m k with
    | none => simp [hm, lookupVal, Option.orElse]
    | some w => rw [hm] at h; simp at h

theorem lookupVal_setKey_ne (m : InputMap) (k : String) (v : Value) (k' : String)
    (h : k' ≠ k) : lookupVal (setKey m k v) k' = lookupVal m k' := by
  have h' : ¬(k = k') := Ne.symm h
  unfold setKey
  split
  · rw [lookupVal_updateVal]; simp [h]
  · rw [lookupVal_append]
    cases hm : lookupVal m k' with
    | none => simp [lookupVal, Option.orElse, h']
    | some w => simp [Option.orElse]

theorem lookupVal_padKey_ne (m : InputMap) (key : String) (P : ℚ) (k' : String)
    (h : k' ≠ key) : lookupVal (padKey m key P) k' = lookupVal m k' := by
  unfold padKey
  cases hm : lookupVal m key with
  | none => rfl
  | some w =>
      cases w <;> try rfl
      rw [lookupVal_updateVal]; simp [h]

theorem lookupVal_padKey_self (m : InputMap) (key : String) (P : ℚ) :
    lookupVal (padKey m key P) key =
      match lookupVal m key with
      | some (.curve c) => some (.curve (padCurve c P))
      | o => o := by
  unfold padKey
  cases hm : lookupVal m key with
  | none => simp [hm]
  | some w =>
      cases w <;> simp [hm, lookupVal_updateVal]

theorem keys_setKey_present (m : InputMap) (k : String) (v : Value)
    (h : (lookupVal m k).isSome) :
    (setKey m k v).map Prod.fst = m.map Prod.fst := by
  unfold setKey
  rw [if_pos h]
  exact keys_updateVal m k v

theorem keys_setKey_absent (m : InputMap) (k : String) (v : Value)
    (h : lookupVal m k = none) :
    (setKey m k v).map Prod.fst = m.map Prod.fst ++ [k] := by
  unfold setKey
  rw [if_neg (by simp [h])]
  simp

theorem keys_padKey (m : InputMap) (key : String) (P : ℚ) :
    (padKey m key P).map Prod.fst = m.map Prod.fst := by
  unfold padKey
  cases hm : lookupVal m key with
  | none => rfl
  | some w => cases w <;> first | rfl | exact keys_updateVal ..

theorem lookupVal_filterKeys (r : InputMap) (q : String → Bool) (k : String) :
    lookupVal (r.filter (fun p => q p.1)) k = if q k then lookupVal r k else none := by
  induction r with
  | nil => simp [lookupVal]
  | cons p rest ih =>
      by_cases hq : q p.1 <;> by_cases hk : p.1 = k <;>
        simp_all [lookupVal]

theorem lookupVal_mapResolve (d r : InputMap) (k : String) :
    lookupVal (d.map (fun p => (p.1, (lookupVal r p.1).getD p.2))) k =
      (lookupVal d k).map (fun dv => (lookupVal r k).getD dv) := by
  induction d with
  | nil => rfl
  | cons p rest ih =>
      by_cases h : p.1 = k <;> simp_all [lookupVal]

theorem lookupVal_spread (d r : InputMap) (k : String) :
    lookupVal (spread d r) k =
      match lookupVal d k with
      | some dv => some ((lookupVal r k).getD dv)
      | none => lookupVal r k := by
  unfold spread
  rw [lookupVal_append, lookupVal_mapResolve,
    lookupVal_filterKeys r (fun s => (lookupVal d s).isNone) k]
  cases hd : lookupVal d k with
  | none => simp [hd, Option.orElse]
  | some dv => simp [hd, Option.orElse]

theorem map_fst_filterKeys (r : InputMap) (q : String → Bool) :
    (r.filter (fun p => q p.1)).map Prod.fst = (r.map Prod.fst).filter q := by
  induction r with
  | nil => rfl
  | cons p rest ih =>
      by_cases hq : q p.1 <;> simp [hq, ih]

theorem keys_spread (d r : InputMap) :
    (spread d r).map Prod.fst =
      d.map Prod.fst ++ (r.map Prod.fst).filter (fun s => (lookupVal d s).isNone) := by
  unfold spread
  rw [List.map_append, List.map_map, ← map_fst_filterKeys]
  congr 1

/-! ### Congruence: every engine component reads the input map only through
`lookupVal` (and, for the hash, the key list) -/

theorem numD_congr {m₁ m₂ : InputMap}
    (hk : ∀ k, lookupVal m₁ k = lookupVal m₂ k) (k : String) (d : ℚ) :
    numD m₁ k d = numD m₂ k d := by
  simp [numD, hk]

theorem curveVal_congr {m₁ m₂ : InputMap}
    (hk : ∀ k, lookupVal m₁ k = lookupVal m₂ k) (k : String) :
    curveVal m₁ k = curveVal m₂ k := by
  simp [curveVal, hk]

theorem truthyNum_congr {m₁ m₂ : InputMap}
    (hk : ∀ k, lookupVal m₁ k = lookupVal m₂ k) (k : String) :
    truthyNum m₁ k = truthyNum m₂ k := by
  simp [truthyNum, hk]

theorem rampAt_congr {m₁ m₂ : InputMap}
    (hk : ∀ k, lookupVal m₁ k = lookupVal m₂ k) (k : String) (p : ℕ) :
    rampAt m₁ k p = rampAt m₂ k p := by
  simp [rampAt, curveVal_congr hk]

theorem mkPeriod_congr {m₁ m₂ : InputMap}
    (hk : ∀ k, lookupVal m₁ k = lookupVal m₂ k) (taxRate : ℚ) (p : ℕ) (prevCum : ℚ) :
    mkPeriod m₁ taxRate p prevCum = mkPeriod m₂ taxRate p prevCum := by
  simp only [mkPeriod, numD_congr hk, rampAt_congr hk, truthyNum_congr hk]

theorem period0_congr {m₁ m₂ : InputMap}
    (hk : ∀ k, lookupVal m₁ k = lookupVal m₂ k) :
    period0 m₁ = period0 m₂ := by
  simp only [period0, numD_congr hk]

theorem buildPeriods_congr {m₁ m₂ : InputMap}
    (hk : ∀ k, lookupVal m₁ k = lookupVal m₂ k) (taxRate : ℚ) :
    ∀ (fuel p : ℕ) (cum : ℚ),
      buildPeriods m₁ taxRate cum p fuel = buildPeriods m₂ taxRate cum p fuel := by
  intro fuel
  induction fuel with
  | zero => intro p cum; rfl
  | succ n ih =>
      intro p cum
      simp only [buildPeriods, mkPeriod_congr hk, ih]

theorem calculatePeriods_congr {m₁ m₂ : InputMap}
    (hk : ∀ k, lookupVal m₁ k = lookupVal m₂ k) :
    calculatePeriods m₁ = calculatePeriods m₂ := by
  simp only [calculatePeriods, numD_congr hk, period0_congr hk, buildPeriods_congr hk]

theorem calculateCompletenessScore_congr {m₁ m₂ : InputMap}
    (hk : ∀ k, lookupVal m₁ k = lookupVal m₂ k) :
    calculateCompletenessScore m₁ = calculateCompletenessScore m₂ := by
  simp only [calculateCompletenessScore, hk]

theorem calculateDataQualityScore_congr {m₁ m₂ : InputMap}
    (hk : ∀ k, lookupVal m₁ k = lookupVal m₂ k) (c : ℚ) :
    calculateDataQualityScore m₁ c = calculateDataQualityScore m₂ c := by
  simp only [calculateDataQualityScore, numD_congr hk, hk]

theorem calculateSummary_congr {m₁ m₂ : InputMap}
    (hk : ∀ k, lookupVal m₁ k = lookupVal m₂ k) (periods : List PeriodMetrics) :
    calculateSummary m₁ periods = calculateSummary m₂ periods := by
  simp only [calculateSummary, numD_congr hk, calculateCompletenessScore_congr hk,
    calculateDataQualityScore_congr hk]

theorem sortStrings_eq_of_perm {l₁ l₂ : List String} (h : l₁.Perm l₂) :
    sortStrings l₁ = sortStrings l₂ :=
  List.eq_of_perm_of_sorted
    ((List.perm_insertionSort _ _).trans (h.trans (List.perm_insertionSort _ _).symm))
    (List.sorted_insertionSort _ _) (List.sorted_insertionSort _ _)

theorem generateHash_congr {m₁ m₂ : InputMap}
    (hp : (m₁.map Prod.fst).Perm (m₂.map Prod.fst))
    (hk : ∀ k, lookupVal m₁ k = lookupVal m₂ k) :
    generateHash m₁ = generateHash m₂ := by
  unfold generateHash
  rw [sortStrings_eq_of_perm hp]
  simp only [hk]

/-! ### The operating-period list is the tail of the period list -/

theorem mkPeriod_period (m : InputMap) (taxRate : ℚ) (p : ℕ) (cum : ℚ) :
    (mkPeriod m taxRate p cum).period = (p : ℚ) := rfl

theorem period0_period (m : InputMap) : (period0 m).period = 0 := rfl

theorem filter_buildPeriods (inputs : InputMap) (taxRate : ℚ) :
    ∀ (fuel p : ℕ) (cum : ℚ), 1 ≤ p →
      (buildPeriods inputs taxRate cum p fuel).filter
          (fun r => decide (0 < r.period)) =
        buildPeriods inputs taxRate cum p fuel := by
  intro fuel
  induction fuel with
  | zero => intro p cum _; rfl
  | succ n ih =>
      intro p cum hp
      have hpos : (0 : ℚ) < (p : ℚ) := by
        exact_mod_cast Nat.lt_of_lt_of_le Nat.zero_lt_one hp
      simp only [buildPeriods, List.filter_cons, mkPeriod_period, hpos,
        decide_true_eq_true]
      rw [if_pos (by simp [hpos])]
      rw [ih (p + 1) _ (Nat.le_succ_of_le hp)]

theorem operatingPeriods_eq (m : InputMap) :
    (calculatePeriods m).filter (fun r => decide (0 < r.period)) =
      (calculatePeriods m).tail := by
  simp only [calculatePeriods, List.filter_cons, period0_period, List.tail_cons]
  rw [if_neg (by simp)]
  exact filter_buildPeriods m _ _ 1 _ le_rfl

/-! ### The cumulative-cash-flow chain of the operating loop -/

theorem buildPeriods_length (m : InputMap) (taxRate : ℚ) :
    ∀ (fuel p : ℕ) (cum : ℚ), (buildPeriods m taxRate cum p fuel).length = fuel := by
  intro fuel
  induction fuel with
  | zero => intro p cum; rfl
  | succ n ih => intro p cum; simp [buildPeriods, ih]

theorem mkPeriod_cum (m : InputMap) (taxRate : ℚ) (p : ℕ) (c : ℚ) :
    (mkPeriod m taxRate p c).cumulativeCashFlow =
      c + (mkPeriod m taxRate p c).freeCashFlow := rfl

theorem buildPeriods_head (m : InputMap) (taxRate : ℚ) :
    ∀ (fuel p : ℕ) (c : ℚ), 0 < fuel →
      ∃ b, (buildPeriods m taxRate c p fuel).get? 0 = some b ∧
        b.cumulativeCashFlow = c + b.freeCashFlow := by
  intro fuel p c h
  cases fuel with
  | zero => exact absurd h (by simp)
  | succ n => exact ⟨mkPeriod m taxRate p c, rfl, mkPeriod_cum m taxRate p c⟩

theorem buildPeriods_chain (m : InputMap) (taxRate : ℚ) :
    ∀ (fuel p : ℕ) (c : ℚ) (i : ℕ), i + 1 < fuel →
      ∃ a b, (buildPeriods m taxRate c p fuel).get? i = some a ∧
        (buildPeriods m taxRate c p fuel).get? (i + 1) = some b ∧
        b.cumulativeCashFlow = a.cumulativeCashFlow + b.freeCashFlow := by
  intro fuel
  induction fuel with
  | zero => intro p c i h; exact absurd h (by simp)
  | succ n ih =>
      intro p c i h
      cases i with
      | zero =>
          obtain ⟨b, hb1, hb2⟩ := buildPeriods_head m taxRate n (p + 1)
            (mkPeriod m taxRate p c).cumulativeCashFlow (by omega)
          refine ⟨mkPeriod m taxRate p c, b, rfl, ?_, by rw [hb2]⟩
          simpa [buildPeriods] using hb1
      | succ j =>
          obtain ⟨a, b, h1, h2, h3⟩ := ih (p + 1)
            (mkPeriod m taxRate p c).cumulativeCashFlow j (by omega)
          refine ⟨a, b, ?_, ?_, h3⟩
          · simpa [buildPeriods] using h1
          · simpa [buildPeriods] using h2

/-! ### Keys the normalizer and the defaults table never touch read through to
the caller's raw map -/

theorem lookupVal_normalize_other (m : InputMap) (k : String)
    (h1 : k ≠ "baseline_revenue") (h2 : k ≠ "revenue_ramp_curve")
    (h3 : k ≠ "cost_ramp_curve") :
    lookupVal (normalizeInputs m).1 k = lookupVal m k := by
  simp only [normalizeInputs]
  rw [lookupVal_padKey_ne _ _ _ _ h3, lookupVal_padKey_ne _ _ _ _ h2]
  split
  · rw [lookupVal_setKey_ne _ _ _ _ h1]
  · rfl

theorem lookupVal_engine_raw (raw : InputMap) (k : String)
    (hd : lookupVal DEFAULTS k = none)
    (h1 : k ≠ "baseline_revenue") (h2 : k ≠ "revenue_ramp_curve")
    (h3 : k ≠ "cost_ramp_curve") :
    lookupVal (normalizeInputs (spread DEFAULTS raw)).1 k = lookupVal raw k := by
  rw [lookupVal_normalize_other _ _ h1 h2 h3, lookupVal_spread, hd]

theorem numD_engine_raw (raw : InputMap) (k : String) (d : ℚ)
    (hd : lookupVal DEFAULTS k = none)
    (h1 : k ≠ "baseline_revenue") (h2 : k ≠ "revenue_ramp_curve")
    (h3 : k ≠ "cost_ramp_curve") :
    numD (normalizeInputs (spread DEFAULTS raw)).1 k d = numD raw k d := by
  unfold numD
  rw [lookupVal_engine_raw raw k hd h1 h2 h3]

/-! ### The defaults table under different curve-array contents -/

theorem keys_defaultsWith (a b : List ℚ) :
    (DEFAULTSwith a b).map Prod.fst =
      ["effective_tax_rate", "depreciation_years", "model_periods",
       "probability_of_success", "cost_of_capital", "revenue_ramp_curve",
       "cost_ramp_curve"] := rfl

theorem lookupVal_defaultsWith_rev (a b : List ℚ) :
    lookupVal (DEFAULTSwith a b) "revenue_ramp_curve" = some (.curve a) := rfl

theorem lookupVal_defaultsWith_cost (a b : List ℚ) :
    lookupVal (DEFAULTSwith a b) "cost_ramp_curve" = some (.curve b) := rfl

theorem lookupVal_defaultsWith_other (a b a' b' : List ℚ) (k : String)
    (h2 : k ≠ "revenue_ramp_curve") (h3 : k ≠ "cost_ramp_curve") :
    lookupVal (DEFAULTSwith a b) k = lookupVal (DEFAULTSwith a' b') k := by
  simp only [DEFAULTSwith, lookupVal]
  split_ifs <;> first
    | rfl
    | (exfalso; exact h2 (by symm; assumption))
    | (exfalso; exact h3 (by symm; assumption))

theorem isNone_defaultsWith (a b a' b' : List ℚ) (k : String) :
    (lookupVal (DEFAULTSwith a b) k).isNone =
      (lookupVal (DEFAULTSwith a' b') k).isNone := by
  simp only [DEFAULTSwith, lookupVal]
  split_ifs <;> rfl

/-! ### Padding is idempotent -/

theorem padCurve_length (c : List ℚ) (P : ℚ) :
    (padCurve c P).length = c.length + (natCeil P - c.length) := by
  simp [padCurve]

theorem padCurve_idem (c : List ℚ) (P : ℚ) :
    padCurve (padCurve c P) P = padCurve c P := by
  have h : natCeil P - (padCurve c P).length = 0 := by
    rw [padCurve_length]; omega
  rw [padCurve, h]
  simp

/-! ### What the normalizer does to the three keys it touches -/

theorem lookupVal_maybeSet (m : InputMap) (c : Prop) [Decidable c]
    (k' : String) (v : Value) (k : String) (hk : k ≠ k') :
    lookupVal (if c then setKey m k' v else m) k = lookupVal m k := by
  split
  · rw [lookupVal_setKey_ne _ _ _ _ hk]
  · rfl

theorem lookupVal_normalize_base (m : InputMap) :
    lookupVal (normalizeInputs m).1 "baseline_revenue" =
      if needsRevenueDefault (lookupVal m "baseline_revenue") then some (.num 0)
      else lookupVal m "baseline_revenue" := by
  simp only [normalizeInputs]
  rw [lookupVal_padKey_ne _ _ _ _ (by decide), lookupVal_padKey_ne _ _ _ _ (by decide)]
  split
  · rw [lookupVal_setKey_self]
  · rfl

theorem numD_maybeSetBase (m : InputMap) (c : Prop) [Decidable c] :
    numD (if c then setKey m "baseline_revenue" (.num 0) else m)
      "model_periods" 5 = numD m "model_periods" 5 := by
  unfold numD
  rw [lookupVal_maybeSet m c "baseline_revenue" (.num 0) "model_periods" (by decide)]

theorem lookupVal_normalize_rev (m : InputMap) :
    lookupVal (normalizeInputs m).1 "revenue_ramp_curve" =
      match lookupVal m "revenue_ramp_curve" with
      | some (.curve c) =>
          some (.curve (padCurve c (numD m "model_periods" 5)))
      | o => o := by
  simp only [normalizeInputs]
  rw [lookupVal_padKey_ne _ _ _ _ (by decide), lookupVal_padKey_self]
  simp only [lookupVal_maybeSet m _ "baseline_revenue" (.num 0) "revenue_ramp_curve"
      (by decide),
    numD_maybeSetBase m _]

theorem lookupVal_normalize_cost (m : InputMap) :
    lookupVal (normalizeInputs m).1 "cost_ramp_curve" =
      match lookupVal m "cost_ramp_curve" with
      | some (.curve c) =>
          some (.curve (padCurve c (numD m "model_periods" 5)))
      | o => o := by
  simp only [normalizeInputs]
  rw [lookupVal_padKey_self, lookupVal_padKey_ne _ _ _ _ (by decide)]
  simp only [lookupVal_maybeSet m _ "baseline_revenue" (.num 0) "cost_ramp_curve"
      (by decide),
    numD_maybeSetBase m _]

/-! ### One call's heap effects leave the next call's merged inputs stable -/

theorem lookupVal_rawAfterCall_other (raw : InputMap) (P : ℚ) (k : String)
    (h2 : k ≠ "revenue_ramp_curve") (h3 : k ≠ "cost_ramp_curve") :
    lookupVal (rawAfterCall raw P) k = lookupVal raw k := by
  unfold rawAfterCall
  rw [lookupVal_padKey_ne _ _ _ _ h3, lookupVal_padKey_ne _ _ _ _ h2]

theorem rawAfterCall_rev (raw : InputMap) (P : ℚ) :
    lookupVal (rawAfterCall raw P) "revenue_ramp_curve" =
      match lookupVal raw "revenue_ramp_curve" with
      | some (.curve c) => some (.curve (padCurve c P))
      | o => o := by
  unfold rawAfterCall
  rw [lookupVal_padKey_ne _ _ _ _ (by decide), lookupVal_padKey_self]

theorem rawAfterCall_cost (raw : InputMap) (P : ℚ) :
    lookupVal (rawAfterCall raw P) "cost_ramp_curve" =
      match lookupVal raw "cost_ramp_curve" with
      | some (.curve c) => some (.curve (padCurve c P))
      | o => o := by
  unfold rawAfterCall
  rw [lookupVal_padKey_self,
    lookupVal_padKey_ne raw "revenue_ramp_curve" P "cost_ramp_curve" (by decide)]

theorem keys_rawAfterCall (raw : InputMap) (P : ℚ) :
    (rawAfterCall raw P).map Prod.fst = raw.map Prod.fst := by
  unfold rawAfterCall
  rw [keys_padKey, keys_padKey]

theorem mergedAfter_other (raw : InputMap) (dRev dCost : List ℚ) (P : ℚ)
    (k : String) (h2 : k ≠ "revenue_ramp_curve") (h3 : k ≠ "cost_ramp_curve") :
    lookupVal (mergedAfter raw dRev dCost P) k =
      lookupVal (spread (DEFAULTSwith dRev dCost) raw) k := by
  unfold mergedAfter
  rw [lookupVal_spread, lookupVal_spread,
    lookupVal_defaultsWith_other _ _ dRev dCost k h2 h3,
    lookupVal_rawAfterCall_other raw P k h2 h3]

theorem mergedAfter_rev (raw : InputMap) (dRev dCost : List ℚ) (P : ℚ) :
    lookupVal (mergedAfter raw dRev dCost P) "revenue_ramp_curve" =
      match lookupVal (spread (DEFAULTSwith dRev dCost) raw)
          "revenue_ramp_curve" with
      | some (.curve c) => some (.curve (padCurve c P))
      | o => o := by
  unfold mergedAfter
  rw [lookupVal_spread, lookupVal_spread, lookupVal_defaultsWith_rev,
    lookupVal_defaultsWith_rev, rawAfterCall_rev]
  unfold defCurveAfterCall
  cases hr : lookupVal raw "revenue_ramp_curve" with
  | none => simp [hr]
  | some v => cases v <;> simp [hr]

theorem mergedAfter_cost (raw : InputMap) (dRev dCost : List ℚ) (P : ℚ) :
    lookupVal (mergedAfter raw dRev dCost P) "cost_ramp_curve" =
      match lookupVal (spread (DEFAULTSwith dRev dCost) raw)
          "cost_ramp_curve" with
      | some (.curve c) => some (.curve (padCurve c P))
      | o => o := by
  unfold mergedAfter
  rw [lookupVal_spread, lookupVal_spread, lookupVal_defaultsWith_cost,
    lookupVal_defaultsWith_cost, rawAfterCall_cost]
  unfold defCurveAfterCall
  cases hr : lookupVal raw "cost_ramp_curve" with
  | none => simp [hr]
  | some v => cases v <;> simp [hr]

theorem keys_mergedAfter (raw : InputMap) (dRev dCost : List ℚ) (P : ℚ) :
    (mergedAfter raw dRev dCost P).map Prod.fst =
      (spread (DEFAULTSwith dRev dCost) raw).map Prod.fst := by
  unfold mergedAfter
  rw [keys_spread, keys_spread, keys_defaultsWith, keys_defaultsWith,
    keys_rawAfterCall]
  congr 1
  apply List.filter_congr
  intro s _
  exact isNone_defaultsWith _ _ dRev dCost s

theorem periods_mergedAfter (raw : InputMap) (dRev dCost : List ℚ) (P : ℚ) :
    numD (mergedAfter raw dRev dCost P) "model_periods" 5 =
      numD (spread (DEFAULTSwith dRev dCost) raw) "model_periods" 5 := by
  unfold numD
  rw [mergedAfter_other raw dRev dCost P "model_periods" (by decide) (by decide)]

theorem normalized_after_pointwise (raw : InputMap) (dRev dCost : List ℚ)
    (k : String) :
    lookupVal (normalizeInputs (mergedAfter raw dRev dCost
        (numD (spread (DEFAULTSwith dRev dCost) raw) "model_periods" 5))).1 k =
      lookupVal (normalizeInputs (spread (DEFAULTSwith dRev dCost) raw)).1 k := by
  by_cases hb : k = "baseline_revenue"
  · subst hb
    rw [lookupVal_normalize_base, lookupVal_normalize_base,
      mergedAfter_other raw dRev dCost _ "baseline_revenue" (by decide) (by decide)]
  by_cases hr : k = "revenue_ramp_curve"
  · subst hr
    rw [lookupVal_normalize_rev, lookupVal_normalize_rev, mergedAfter_rev]
    simp only [periods_mergedAfter]
    cases hm : lookupVal (spread (DEFAULTSwith dRev dCost) raw)
        "revenue_ramp_curve" with
    | none => rfl
    | some v => cases v <;> simp [padCurve_idem]
  by_cases hc : k = "cost_ramp_curve"
  · subst hc
    rw [lookupVal_normalize_cost, lookupVal_normalize_cost, mergedAfter_cost]
    simp only [periods_mergedAfter]
    cases hm : lookupVal (spread (DEFAULTSwith dRev dCost) raw)
        "cost_ramp_curve" with
    | none => rfl
    | some v => cases v <;> simp [padCurve_idem]
  rw [lookupVal_normalize_other _ _ hb hr hc, lookupVal_normalize_other _ _ hb hr hc,
    mergedAfter_other raw dRev dCost _ k hr hc]

theorem keys_normalize (m : InputMap) :
    (normalizeInputs m).1.map Prod.fst =
      m.map Prod.fst ++
        (if lookupVal m "baseline_revenue" = none then ["baseline_revenue"]
         else []) := by
  simp only [normalizeInputs]
  rw [keys_padKey, keys_padKey]
  split
  · rename_i hcond
    unfold setKey
    split
    · rename_i hsome
      rw [keys_updateVal]
      have hne : ¬(lookupVal m "baseline_revenue" = none) := by
        intro hn; rw [hn] at hsome; simp at hsome
      rw [if_neg hne]; simp
    · rename_i hnone
      have heq : lookupVal m "baseline_revenue" = none := by
        cases h' : lookupVal m "baseline_revenue" with
        | none => rfl
        | some w => rw [h'] at hnone; simp at hnone
      rw [if_pos heq]; simp
  · rename_i hcond
    have hne : ¬(lookupVal m "baseline_revenue" = none) := by
      intro hn
      rw [hn] at hcond
      exact hcond rfl
    rw [if_neg hne]; simp

theorem keys_normalized_after (raw : InputMap) (dRev dCost : List ℚ) :
    (normalizeInputs (mergedAfter raw dRev dCost
        (numD (spread (DEFAULTSwith dRev dCost) raw) "model_periods" 5))).1.map
      Prod.fst =
      (normalizeInputs (spread (DEFAULTSwith dRev dCost) raw)).1.map Prod.fst := by
  rw [keys_normalize, keys_normalize, keys_mergedAfter,
    mergedAfter_other raw dRev dCost _ "baseline_revenue" (by decide) (by decide)]

/-! ### Lookup is invariant under key reordering of a no-duplicate map -/

theorem lookupVal_perm {l₁ l₂ : InputMap} (h : l₁.Perm l₂) :
    (l₁.map Prod.fst).Nodup → ∀ k, lookupVal l₁ k = lookupVal l₂ k := by
  induction h with
  | nil => intro _ k; rfl
  | cons x h ih =>
      intro hnd k
      simp only [List.map_cons, List.nodup_cons] at hnd
      simp only [lookupVal]
      by_cases hx : x.1 = k
      · simp [hx]
      · simp only [hx, if_false]
        exact ih hnd.2 k
  | swap x y l =>
      intro hnd k
      simp only [List.map_cons, List.nodup_cons, List.mem_cons] at hnd
      have hxy : y.1 ≠ x.1 := fun hh => hnd.1 (Or.inl hh)
      simp only [lookupVal]
      by_cases h1 : y.1 = k <;> by_cases h2 : x.1 = k
      · exact absurd (h1.trans h2.symm) hxy
      · simp [h1, h2]
      · simp [h1, h2]
      · simp [h1, h2]
  | trans h12 _ ih12 ih23 =>
      intro hnd k
      rw [ih12 hnd k, ih23 (((h12.map Prod.fst).nodup_iff).mp hnd) k]

theorem lookupVal_normalize_pointwise {m₁ m₂ : InputMap}
    (hk : ∀ k, lookupVal m₁ k = lookupVal m₂ k) (k : String) :
    lookupVal (normalizeInputs m₁).1 k = lookupVal (normalizeInputs m₂).1 k := by
  by_cases hb : k = "baseline_revenue"
  · subst hb
    rw [lookupVal_normalize_base, lookupVal_normalize_base, hk]
  by_cases hr : k = "revenue_ramp_curve"
  · subst hr
    rw [lookupVal_normalize_rev, lookupVal_normalize_rev]
    simp only [hk, numD_congr hk]
  by_cases hc : k = "cost_ramp_curve"
  · subst hc
    rw [lookupVal_normalize_cost, lookupVal_normalize_cost]
    simp only [hk, numD_congr hk]
  rw [lookupVal_normalize_other _ _ hb hr hc, lookupVal_normalize_other _ _ hb hr hc,
    hk]

theorem outputs_after_stable (raw : InputMap) (dRev dCost : List ℚ) :
    calculateSummary
        (normalizeInputs (mergedAfter raw dRev dCost
          (numD (spread (DEFAULTSwith dRev dCost) raw) "model_periods" 5))).1
        (calculatePeriods
          (normalizeInputs (mergedAfter raw dRev dCost
            (numD (spread (DEFAULTSwith dRev dCost) raw) "model_periods" 5))).1) =
      calculateSummary (normalizeInputs (spread (DEFAULTSwith dRev dCost) raw)).1
        (calculatePeriods
          (normalizeInputs (spread (DEFAULTSwith dRev dCost) raw)).1) ∧
    calculatePeriods
        (normalizeInputs (mergedAfter raw dRev dCost
          (numD (spread (DEFAULTSwith dRev dCost) raw) "model_periods" 5))).1 =
      calculatePeriods (normalizeInputs (spread (DEFAULTSwith dRev dCost) raw)).1 ∧
    generateHash
        (normalizeInputs (mergedAfter raw dRev dCost
          (numD (spread (DEFAULTSwith dRev dCost) raw) "model_periods" 5))).1 =
      generateHash (normalizeInputs (spread (DEFAULTSwith dRev dCost) raw)).1 := by
  have hk := normalized_after_pointwise raw dRev dCost
  have hkeys := keys_normalized_after raw dRev dCost
  have hper := calculatePeriods_congr hk
  refine ⟨?_, hper, ?_⟩
  · rw [hper]
    exact calculateSummary_congr hk _
  · exact generateHash_congr (by rw [hkeys]) hk

/-- **C1.** With Scenario 1's inputs, `calculateMetrics` returns period-1
`freightSavings = 400000`, period-5 `freightSavings = 800000`,
`summary.tufi = 150000`, period-5 `nopat = 600000` (the steady state), and
`summary.roic = 4`. -/
theorem claim_C1 : ∀ now : String,
    ((calculateMetrics scenario1Inputs now).periods.get? 1).map
        PeriodMetrics.freightSavings = some 400000 ∧
    ((calculateMetrics scenario1Inputs now).periods.get? 5).map
        PeriodMetrics.freightSavings = some 800000 ∧
    (calculateMetrics scenario1Inputs now).summary.tufi = 150000 ∧
    ((calculateMetrics scenario1Inputs now).periods.get? 5).map
        PeriodMetrics.nopat = some 600000 ∧
    (calculateMetrics scenario1Inputs now).summary.roic = 4 := by
  intro now
  refine ⟨?_, ?_, ?_, ?_, ?_⟩ <;> with_unfolding_all rfl

/-- **C2.** For every input map, `cumulativeCashFlow` at period 0 is
`-(upfront_capex + implementation_cost)` (absent inputs taken as 0), and for
every period `p` in `1..model_periods` (the indices of the produced period
list), `cumulativeCashFlow[p] = cumulativeCashFlow[p-1] + freeCashFlow[p]`. -/
theorem calculatePeriods_chain (m : InputMap) (p : ℕ) (hp1 : 1 ≤ p)
    (hp2 : p < (calculatePeriods m).length) :
    ∃ a b, (calculatePeriods m).get? (p - 1) = some a ∧
      (calculatePeriods m).get? p = some b ∧
      b.cumulativeCashFlow = a.cumulativeCashFlow + b.freeCashFlow := by
  obtain ⟨q, rfl⟩ : ∃ q, p = q + 1 := ⟨p - 1, (Nat.succ_pred_eq_of_pos hp1).symm⟩
  simp only [calculatePeriods] at hp2 ⊢
  rw [List.length_cons, buildPeriods_length] at hp2
  have hq := Nat.lt_of_succ_lt_succ hp2
  cases q with
  | zero =>
      obtain ⟨b, hb1, hb2⟩ := buildPeriods_head m
        (numD m "effective_tax_rate" 25 / 100)
        (natFloor (numD m "model_periods" 5)) 1
        (period0 m).cumulativeCashFlow hq
      refine ⟨period0 m, b, rfl, ?_, by rw [hb2]⟩
      simpa [List.get?] using hb1
  | succ j =>
      obtain ⟨a, b, h1, h2, h3⟩ := buildPeriods_chain m
        (numD m "effective_tax_rate" 25 / 100)
        (natFloor (numD m "model_periods" 5)) 1
        (period0 m).cumulativeCashFlow j hq
      refine ⟨a, b, ?_, ?_, h3⟩
      · simpa [List.get?] using h1
      · simpa [List.get?] using h2

theorem claim_C2 (raw : InputMap) (now : String) :
    (((calculateMetrics raw now).periods.get? 0).map
        PeriodMetrics.cumulativeCashFlow =
      some (-(numD raw "upfront_capex" 0 + numD raw "implementation_cost" 0))) ∧
    ∀ p : ℕ, 1 ≤ p → p < (calculateMetrics raw now).periods.length →
      ∃ a b, (calculateMetrics raw now).periods.get? (p - 1) = some a ∧
        (calculateMetrics raw now).periods.get? p = some b ∧
        b.cumulativeCashFlow = a.cumulativeCashFlow + b.freeCashFlow := by
  constructor
  · show some ((period0 (normalizeInputs (spread DEFAULTS raw)).1).cumulativeCashFlow)
      = _
    have hcum : (period0 (normalizeInputs (spread DEFAULTS raw)).1).cumulativeCashFlow
        = -(numD (normalizeInputs (spread DEFAULTS raw)).1 "upfront_capex" 0 +
            numD (normalizeInputs (spread DEFAULTS raw)).1 "implementation_cost" 0) :=
      rfl
    rw [hcum,
      numD_engine_raw raw "upfront_capex" 0 (by decide) (by decide) (by decide)
        (by decide),
      numD_engine_raw raw "implementation_cost" 0 (by decide) (by decide) (by decide)
        (by decide)]
  · intro p hp1 hp2
    exact calculatePeriods_chain (normalizeInputs (spread DEFAULTS raw)).1 p hp1 hp2

/-- **C2 (witness).** The invariant instantiated at Scenario 1's inputs and
`p = 1`. -/
theorem claim_C2_witness :
    (((calculateMetrics scenario1Inputs "").periods.get? 0).map
        PeriodMetrics.cumulativeCashFlow = some (-150000)) ∧
    ∃ a b, (calculateMetrics scenario1Inputs "").periods.get? 0 = some a ∧
      (calculateMetrics scenario1Inputs "").periods.get? 1 = some b ∧
      b.cumulativeCashFlow = a.cumulativeCashFlow + b.freeCashFlow := by
  have h := claim_C2 scenario1Inputs ""
  constructor
  · rw [h.1]
    have hv : -(numD scenario1Inputs "upfront_capex" 0 +
        numD scenario1Inputs "implementation_cost" 0) = (-150000 : ℚ) := by
      with_unfolding_all rfl
    rw [hv]
  · have hl : (calculateMetrics scenario1Inputs "").periods.length = 6 := by
      with_unfolding_all rfl
    exact h.2 1 le_rfl (by rw [hl]; norm_num)

/-- **C6 (counterexample).** With `working_capital_delta = 5` supplied, the
period-0 record's `workingCapitalImpact` is not zero, contradicting the claim
that every working-capital field of period 0 is zero. -/
theorem claim_C6_cex :
    ((calculateMetrics c6CexInputs "").periods.get? 0).map
      PeriodMetrics.workingCapitalImpact ≠ some 0 := by
  have h5 : ((calculateMetrics c6CexInputs "").periods.get? 0).map
      PeriodMetrics.workingCapitalImpact = some 5 := by
    with_unfolding_all rfl
  rw [h5]
  simp only [ne_eq, Option.some.injEq]
  norm_num

/-- **C6 (amended).** For every input map, the period-0 record has every
impact, depreciation, maintenance and working-capital field equal to zero
*except* `workingCapitalImpact`, which is the supplied `working_capital_delta`
(0 when absent); `operatingCashFlow = -implementation_cost`; and
`freeCashFlow = cumulativeCashFlow = -(upfront_capex + implementation_cost)`
(absent inputs taken as 0). -/
theorem claim_C6 (raw : InputMap) (now : String) :
    (calculateMetrics raw now).periods.get? 0 = some
      { period := 0, revenueImpact := 0, priceImpact := 0, volumeImpact := 0,
        mixImpact := 0, churnImpact := 0, newRevenue := 0, costSavings := 0,
        variableCostSavings := 0, fixedCostSavings := 0, freightSavings := 0,
        laborSavings := 0, vendorSavings := 0, grossImpact := 0, nopat := 0,
        depreciation := 0, maintenanceCost := 0,
        workingCapitalImpact := numD raw "working_capital_delta" 0,
        arImpact := 0, inventoryImpact := 0, apImpact := 0,
        operatingCashFlow := -(numD raw "implementation_cost" 0),
        freeCashFlow := -(numD raw "upfront_capex" 0 + numD raw "implementation_cost" 0),
        cumulativeCashFlow :=
          -(numD raw "upfront_capex" 0 + numD raw "implementation_cost" 0),
        rampPct := 0 } := by
  simp only [calculateMetrics, calculateMetricsWith, calculatePeriods, List.get?,
    period0]
  rw [numD_engine_raw raw "upfront_capex" 0 (by decide) (by decide) (by decide)
      (by decide),
    numD_engine_raw raw "implementation_cost" 0 (by decide) (by decide) (by decide)
      (by decide),
    numD_engine_raw raw "working_capital_delta" 0 (by decide) (by decide) (by decide)
      (by decide)]

/-- Shared shape of `summary.tufi`: the working-capital term is read from the
operating list's head, which is period 1 of the period list. -/
theorem tufi_formula (raw : InputMap) (now : String) :
    (calculateMetrics raw now).summary.tufi =
      numD raw "upfront_capex" 0 + numD raw "implementation_cost" 0 +
        max 0 (-((((calculateMetrics raw now).periods.get? 1).map
          PeriodMetrics.workingCapitalImpact).getD 0)) := by
  simp only [calculateMetrics, calculateMetricsWith, calculateSummary,
    operatingPeriods_eq]
  rw [numD_engine_raw raw "upfront_capex" 0 (by decide) (by decide) (by decide)
      (by decide),
    numD_engine_raw raw "implementation_cost" 0 (by decide) (by decide) (by decide)
      (by decide)]
  rfl

/-- **C7 (counterexample).** With `upfront_capex = -100` the engine returns
`tufi = -100 < 0`: as stated, "tufi is never negative" is false. -/
theorem claim_C7_cex : (calculateMetrics negativeCapexInputs "").summary.tufi < 0 := by
  have h : (calculateMetrics negativeCapexInputs "").summary.tufi = -100 := by
    with_unfolding_all rfl
  rw [h]
  norm_num

/-- **C7 (amended).** For *every* input map, `summary.tufi` equals
`upfront_capex + implementation_cost + max(0, -(workingCapitalImpact of
period 1))` (absent inputs taken as 0); and whenever the supplied
`upfront_capex` and `implementation_cost` are nonnegative, `tufi` is
nonnegative (the unconditional non-negativity fails for negative inputs,
which the engine accepts as-is). -/
theorem claim_C7 (raw : InputMap) (now : String) :
    ((calculateMetrics raw now).summary.tufi =
      numD raw "upfront_capex" 0 + numD raw "implementation_cost" 0 +
        max 0 (-((((calculateMetrics raw now).periods.get? 1).map
          PeriodMetrics.workingCapitalImpact).getD 0))) ∧
    (0 ≤ numD raw "upfront_capex" 0 → 0 ≤ numD raw "implementation_cost" 0 →
      0 ≤ (calculateMetrics raw now).summary.tufi) := by
  refine ⟨tufi_formula raw now, fun hcap himp => ?_⟩
  rw [tufi_formula raw now]
  have h3 : (0 : ℚ) ≤ max 0 (-((((calculateMetrics raw now).periods.get? 1).map
      PeriodMetrics.workingCapitalImpact).getD 0)) := le_max_left _ _
  linarith

/-- **C7 (witness).** The amended claim instantiated at a concrete
nonnegative-investment map, with the non-negativity hypotheses discharged. -/
theorem claim_C7_witness :
    ((calculateMetrics smallCapexInputs "").summary.tufi =
      numD smallCapexInputs "upfront_capex" 0 +
        numD smallCapexInputs "implementation_cost" 0 +
        max 0 (-((((calculateMetrics smallCapexInputs "").periods.get? 1).map
          PeriodMetrics.workingCapitalImpact).getD 0))) ∧
    (0 ≤ numD smallCapexInputs "upfront_capex" 0 ∧
      0 ≤ numD smallCapexInputs "implementation_cost" 0) ∧
    0 ≤ (calculateMetrics smallCapexInputs "").summary.tufi := by
  have h1 : (0 : ℚ) ≤ numD smallCapexInputs "upfront_capex" 0 := by
    have hv : numD smallCapexInputs "upfront_capex" 0 = 100 := by
      with_unfolding_all rfl
    rw [hv]; norm_num
  have h2 : (0 : ℚ) ≤ numD smallCapexInputs "implementation_cost" 0 := by
    have hv : numD smallCapexInputs "implementation_cost" 0 = 0 := by
      with_unfolding_all rfl
    rw [hv]
  have h := claim_C7 smallCapexInputs ""
  exact ⟨h.1, ⟨h1, h2⟩, h.2 h1 h2⟩

/-- **C3.** Two consecutive invocations of `calculateMetrics` on the same
caller map (threading the heap effects of the first call — the caller's padded
curve arrays and the module-level `DEFAULTS` arrays — into the second) yield
identical `summary`, identical `periods`, and identical `computeHash`; only
`computedAt` (the clock reads `t1`, `t2`) may differ. -/
theorem claim_C3 (raw : InputMap) (dRev dCost : List ℚ) (t1 t2 : String) :
    (calculateMetricsSt ⟨raw, dRev, dCost⟩ t1).1.summary =
      (calculateMetricsSt (calculateMetricsSt ⟨raw, dRev, dCost⟩ t1).2 t2).1.summary ∧
    (calculateMetricsSt ⟨raw, dRev, dCost⟩ t1).1.periods =
      (calculateMetricsSt (calculateMetricsSt ⟨raw, dRev, dCost⟩ t1).2 t2).1.periods ∧
    (calculateMetricsSt ⟨raw, dRev, dCost⟩ t1).1.computeHash =
      (calculateMetricsSt (calculateMetricsSt ⟨raw, dRev, dCost⟩ t1).2 t2).1.computeHash := by
  obtain ⟨hs, hp, hh⟩ := outputs_after_stable raw dRev dCost
  unfold mergedAfter at hs hp hh
  simp only [calculateMetricsSt, calculateMetricsWith]
  exact ⟨hs.symm, hp.symm, hh.symm⟩

/-- **C4.** Two raw input maps holding the same key-value pairs in different
key order produce the same `computeHash`: the hash is computed from the
normalized map serialized with keys sorted lexicographically (then SHA-256,
truncated to 16 hex characters), so entry order cannot reach it. -/
theorem claim_C4 (raw₁ raw₂ : InputMap) (t1 t2 : String)
    (hperm : raw₁.Perm raw₂) (hnd : (raw₁.map Prod.fst).Nodup) :
    (calculateMetrics raw₁ t1).computeHash =
      (calculateMetrics raw₂ t2).computeHash := by
  have hkraw : ∀ k, lookupVal raw₁ k = lookupVal raw₂ k := lookupVal_perm hperm hnd
  have hkmerged : ∀ k, lookupVal (spread DEFAULTS raw₁) k =
      lookupVal (spread DEFAULTS raw₂) k := fun k => by
    rw [lookupVal_spread, lookupVal_spread, hkraw k]
  have hknorm := lookupVal_normalize_pointwise hkmerged
  have hkeys : ((normalizeInputs (spread DEFAULTS raw₁)).1.map Prod.fst).Perm
      ((normalizeInputs (spread DEFAULTS raw₂)).1.map Prod.fst) := by
    rw [keys_normalize, keys_normalize, hkmerged "baseline_revenue",
      keys_spread, keys_spread]
    exact ((List.Perm.append_left _ ((hperm.map Prod.fst).filter _)).append
      (List.Perm.refl _))
  simp only [calculateMetrics, calculateMetricsWith]
  exact generateHash_congr hkeys hknorm

/-- **C4 (witness).** The hash invariance applied to a concrete two-driver map
and its key-reversed form. -/
theorem claim_C4_witness :
    (c4MapA.Perm c4MapB ∧ (c4MapA.map Prod.fst).Nodup) ∧
    (calculateMetrics c4MapA "t1").computeHash =
      (calculateMetrics c4MapB "t2").computeHash := by
  have hperm : c4MapA.Perm c4MapB := List.Perm.swap _ _ _
  have hnd : (c4MapA.map Prod.fst).Nodup := by decide
  exact ⟨⟨hperm, hnd⟩, claim_C4 c4MapA c4MapB "t1" "t2" hperm hnd⟩

/-- **C5.** For every input map whose free-cash-flow sequence has no strictly
negative entry, or no strictly positive entry, `summary.irr` is `null`. -/
theorem claim_C5 (raw : InputMap) (now : String)
    (h : (∀ cf ∈ ((calculateMetrics raw now).periods.map
            PeriodMetrics.freeCashFlow), ¬cf < 0) ∨
         (∀ cf ∈ ((calculateMetrics raw now).periods.map
            PeriodMetrics.freeCashFlow), ¬0 < cf)) :
    (calculateMetrics raw now).summary.irr = none := by
  show calculateIRR (calculateMetrics raw now).periods = none
  unfold calculateIRR
  rcases h with h | h
  · rw [if_pos]
    have : ((calculateMetrics raw now).periods.map
        PeriodMetrics.freeCashFlow).any (fun cf => decide (cf < 0)) = false := by
      simp only [List.any_eq_false, decide_eq_true_eq]
      exact h
    simp [this]
  · rw [if_pos]
    have : ((calculateMetrics raw now).periods.map
        PeriodMetrics.freeCashFlow).any (fun cf => decide (0 < cf)) = false := by
      simp only [List.any_eq_false, decide_eq_true_eq]
      exact h
    simp [this]

/-- **C5 (witness).** With only an implementation cost supplied, the free cash
flows are `[-150000, 0, 0, 0, 0, 0]`: no strictly positive entry, and the IRR
is `null`. -/
theorem claim_C5_witness :
    (∀ cf ∈ ((calculateMetrics allNonPositiveInputs "").periods.map
        PeriodMetrics.freeCashFlow), ¬0 < cf) ∧
    (calculateMetrics allNonPositiveInputs "").summary.irr = none := by
  have hfcf : (calculateMetrics allNonPositiveInputs "").periods.map
      PeriodMetrics.freeCashFlow = [-150000, 0, 0, 0, 0, 0] := by
    with_unfolding_all rfl
  have hnp : ∀ cf ∈ ((calculateMetrics allNonPositiveInputs "").periods.map
      PeriodMetrics.freeCashFlow), ¬(0 : ℚ) < cf := by
    rw [hfcf]
    intro cf hcf
    simp only [List.mem_cons, List.mem_singleton, List.not_mem_nil] at hcf
    rcases hcf with rfl | rfl | rfl | rfl | rfl | rfl | hh
    · norm_num
    · norm_num
    · norm_num
    · norm_num
    · norm_num
    · norm_num
    · exact absurd hh (by simp)
  exact ⟨hnp, claim_C5 allNonPositiveInputs "" (Or.inr hnp)⟩

/-- **C8 (code bug).** `calculateMetrics` is not free of observable side
effects.  Object spread copies array references, so the `push` loop of
`normalizeInputs` mutates shared arrays in place: with
`{cost_ramp_curve: [50], implementation_cost: 150000}` the caller's
`cost_ramp_curve` array holds `[50,50,50,50,50]` after the call (it held
`[50]` before), and with `{model_periods: 8}` the module-level
`DEFAULTS.revenue_ramp_curve` array grows from five entries to eight. -/
theorem claim_C8 :
    (lookupVal (calculateMetricsSt (initState c8Inputs) "").2.raw
        "cost_ramp_curve" = some (.curve [50, 50, 50, 50, 50]) ∧
      lookupVal c8Inputs "cost_ramp_curve" = some (.curve [50])) ∧
    ((calculateMetricsSt (initState c8DefaultsOnly) "").2.defRev =
        [100, 100, 100, 100, 100, 100, 100, 100] ∧
      defaultCurve = [100, 100, 100, 100, 100]) := by
  refine ⟨⟨?_, ?_⟩, ?_, ?_⟩ <;> with_unfolding_all rfl

/-- **C9.** `calculateDecisionMetricsSync` assigns GREEN exactly when
`roic ≥ hurdleRate + 0.25·hurdleRate` and `probability ≥ 0.7` (probability
read from `probability_of_success / 100`, defaulting to 1 when absent),
otherwise AMBER when `roic ≥ hurdleRate − 0.25·hurdleRate` and
`probability ≥ 0.5`, otherwise RED; and in particular `roic = 0.18`,
`hurdleRate = 0.12`, `probability = 0.85` yields GREEN. -/
theorem claim_C9 :
    (∀ (baseCase : CalculationOutput) (hurdleRate lt br : ℚ)
        (conservative aggressive : Option CalculationOutput),
      (calculateDecisionMetricsSync baseCase hurdleRate lt br conservative
          aggressive).ragStatus =
        (if baseCase.summary.roic ≥ hurdleRate + hurdleRate * (25/100) ∧
            numD baseCase.inputs "probability_of_success" 100 / 100 ≥ 7/10 then
          RAGStatus.GREEN
        else if baseCase.summary.roic ≥ hurdleRate - hurdleRate * (25/100) ∧
            numD baseCase.inputs "probability_of_success" 100 / 100 ≥ 5/10 then
          RAGStatus.AMBER
        else RAGStatus.RED)) ∧
    (calculateDecisionMetricsSync c9Base (12/100) 0 0 none none).ragStatus =
      RAGStatus.GREEN := by
  constructor
  · intro baseCase hurdleRate lt br conservative aggressive
    rfl
  · with_unfolding_all rfl

/-- **C10.** On the empty input map the payback period is `0`, not `null`:
cumulative cash flow is already non-negative at period 1 and the interpolation
fraction degenerates to 0, giving `1 - 1 + 0 = 0`. -/
theorem claim_C10 : ∀ now : String,
    (calculateMetrics [] now).summary.paybackPeriod = some 0 := by
  intro now
  with_unfolding_all rfl

end Roic
